import Mathlib

/-!
Verification of the ProxyMaster proxy validation/scoring engine
(`test-proxy.py`): a shallow embedding of `ProxyValidator.test_proxy`,
`ProxyMaster.test_proxies` and `ProxyMaster.select_best_proxy`, with
theorems settling the specification claims about scoring, status
classification, batch fault handling, selection and frame conditions.

Numbers: Python floats are modelled as exact rationals (`ℚ`); Python's
`round(x, n)` (round-half-to-even) is modelled exactly on rationals by
`rhalfEven`. Network behaviour is abstracted by a function
`net : String → NetResult` giving, for each target URL, the outcome of
`requests.get` through the candidate proxy: a response with a status
code and elapsed time, or one of the exception classes the source
catches (`ProxyError`, `ConnectTimeout`, `SSLError`, any other
exception with its message).
-/

/-- Round a rational to the nearest integer, ties to even
(the semantics of Python's builtin `round` on exact values). -/
def rhalfEven (q : ℚ) : ℤ :=
  let f := ⌊q⌋
  let frac := q - (f : ℚ)
  if frac < 1/2 then f
  else if 1/2 < frac then f + 1
  else if f % 2 = 0 then f else f + 1

/-- Python `round(q, 1)`. -/
def roundTo1 (q : ℚ) : ℚ := (rhalfEven (q * 10) : ℚ) / 10

/-- Python `round(q, 2)`. -/
def roundTo2 (q : ℚ) : ℚ := (rhalfEven (q * 100) : ℚ) / 100

/-- Outcome of one `requests.get` call through the candidate proxy,
as distinguished by the `try`/`except` chain of `test_proxy`
(test-proxy.py lines 257-311): a response (with HTTP status code and
elapsed seconds), or one of the caught exception classes. -/
inductive NetResult where
  | response (status_code : ℕ) (elapsed : ℚ)
  | proxyError
  | connectTimeout
  | sslError
  | exceptionOther (msg : String)
deriving DecidableEq, Repr

/-- One entry of the `results` list built by `test_proxy`: the per-URL
outcome dict. `status_code` is `none` for the exception branches (the
source dicts omit the key there); `error` is `none` exactly in the
success branch (the source success dict has no `error` key). -/
structure TestOutcome where
  url : String
  success : Bool
  response_time : ℚ
  status_code : Option ℕ
  error : Option String
deriving DecidableEq, Repr

/-- The result dict appended for one URL probe, per branch of the
`try`/`except` chain in `test_proxy` (lines 257-311). The source
treats exactly `status_code == 200` as success. -/
def classifyProbe (url : String) (r : NetResult) : TestOutcome :=
  match r with
  | .response c t =>
    if c = 200 then
      { url := url, success := true, response_time := roundTo2 t,
        status_code := some c, error := none }
    else
      { url := url, success := false, response_time := -1,
        status_code := some c, error := some ("HTTP " ++ toString c) }
  | .proxyError =>
      { url := url, success := false, response_time := -1,
        status_code := none, error := some "Proxy Error" }
  | .connectTimeout =>
      { url := url, success := false, response_time := -1,
        status_code := none, error := some "Timeout" }
  | .sslError =>
      { url := url, success := false, response_time := -1,
        status_code := none, error := some "SSL Error" }
  | .exceptionOther m =>
      { url := url, success := false, response_time := -1,
        status_code := none, error := some m }

/-- The raw elapsed time of a probe when it succeeded (status 200),
`none` otherwise: what the source adds to `total_time`. -/
def rawElapsed : NetResult → Option ℚ
  | .response c t => if c = 200 then some t else none
  | _ => none

/-- The raw elapsed times of the successful probes, in probe order. -/
def succElapsed (net : String → NetResult) (urls : List String) : List ℚ :=
  urls.filterMap (fun u => rawElapsed (net u))

/-- Accumulator of the probe loop of `test_proxy`
(`results`, `total_time`, `success_count`, lines 251-253). -/
structure LoopState where
  results : List TestOutcome
  total_time : ℚ
  success_count : ℕ
deriving DecidableEq, Repr

/-- One iteration of `for url in self.test_urls` (lines 255-311):
append the per-URL result dict; on success also add the raw elapsed
time to `total_time` and bump `success_count`. -/
def probeStep (net : String → NetResult) (s : LoopState) (url : String) : LoopState :=
  match net url with
  | .response c t =>
    if c = 200 then
      { results := s.results ++
          [{ url := url, success := true, response_time := roundTo2 t,
             status_code := some c, error := none }],
        total_time := s.total_time + t,
        success_count := s.success_count + 1 }
    else
      { results := s.results ++
          [{ url := url, success := false, response_time := -1,
             status_code := some c, error := some ("HTTP " ++ toString c) }],
        total_time := s.total_time, success_count := s.success_count }
  | .proxyError =>
      { results := s.results ++
          [{ url := url, success := false, response_time := -1,
             status_code := none, error := some "Proxy Error" }],
        total_time := s.total_time, success_count := s.success_count }
  | .connectTimeout =>
      { results := s.results ++
          [{ url := url, success := false, response_time := -1,
             status_code := none, error := some "Timeout" }],
        total_time := s.total_time, success_count := s.success_count }
  | .sslError =>
      { results := s.results ++
          [{ url := url, success := false, response_time := -1,
             status_code := none, error := some "SSL Error" }],
        total_time := s.total_time, success_count := s.success_count }
  | .exceptionOther m =>
      { results := s.results ++
          [{ url := url, success := false, response_time := -1,
             status_code := none, error := some m }],
        total_time := s.total_time, success_count := s.success_count }

/-- A raw proxy record as created by `SSLProxiesProvider.fetch_proxies`
(lines 207-222): scraped metadata plus the initial untested fields. -/
structure CandidateEndpoint where
  ip : String
  port : String
  code : String
  country : String
  anonymity : String
  google : String
  https : String
  last_checked : String
  source : String
  success : Bool
  response_time : ℚ
  test_time : String
  status : String
  error : String
deriving DecidableEq, Repr

/-- The status string assigned by `test_proxy` (line 323). -/
inductive Status where
  | active
  | unreliable
  | dead
deriving DecidableEq, Repr

/-- The dict returned by `test_proxy` (lines 316-325): the input record
(`{**proxy, ...}`) with the test-result keys overridden. The `error`
summary, `', '.join(set(...))` in the source, is kept as the
deduplicated list of error messages since Python's set iteration order
is unspecified. -/
structure ScoredEndpoint where
  ip : String
  port : String
  code : String
  country : String
  anonymity : String
  google : String
  https : String
  last_checked : String
  source : String
  test_details : List TestOutcome
  success : Bool
  success_rate : ℚ
  response_time : ℚ
  test_time : String
  status : Status
  error : List String
deriving DecidableEq, Repr

/-- `ProxyValidator.test_proxy` (lines 243-325). `net` abstracts the
network: the outcome of probing each URL through this proxy; `now` the
`datetime.now()` timestamp string. `success_rate` is a percentage in
[0,100] rounded to one decimal. Note: on an empty `test_urls` the
source raises `ZeroDivisionError`; here rational division by zero
yields 0, so claims about the rate assume a non-empty URL list. -/
def test_proxy (proxy : CandidateEndpoint) (test_urls : List String)
    (net : String → NetResult) (now : String) : ScoredEndpoint :=
  let s := test_urls.foldl (probeStep net) { results := [], total_time := 0, success_count := 0 }
  let avg_time : ℚ :=
    if 0 < s.success_count then
      roundTo2 (s.total_time / ((max 1 s.success_count : ℕ) : ℚ))
    else -1
  let success_rate : ℚ := roundTo1 ((s.success_count : ℚ) / (test_urls.length : ℚ) * 100)
  { ip := proxy.ip, port := proxy.port, code := proxy.code, country := proxy.country,
    anonymity := proxy.anonymity, google := proxy.google, https := proxy.https,
    last_checked := proxy.last_checked, source := proxy.source,
    test_details := s.results,
    success := decide ((66.6 : ℚ) ≤ success_rate),
    success_rate := success_rate,
    response_time := avg_time,
    test_time := now,
    status := if (66.6 : ℚ) ≤ success_rate then Status.active
              else if 0 < success_rate then Status.unreliable
              else Status.dead,
    error := (s.results.filterMap (fun r => r.error)).dedup }

/-- One iteration of the `as_completed` loop of `ProxyMaster.test_proxies`
(lines 469-482): a future that returned a result appends it to
`active_proxies` exactly when its `success` flag is set; a future that
raised only gets its message printed (second component). -/
def handleFuture (acc : List ScoredEndpoint × List String)
    (outcome : Except String ScoredEndpoint) : List ScoredEndpoint × List String :=
  match outcome with
  | .ok result => (if result.success then acc.1 ++ [result] else acc.1, acc.2)
  | .error e => (acc.1, acc.2 ++ [e])

/-- `ProxyMaster.test_proxies` (lines 454-485) over the per-endpoint
validation outcomes in completion order: each outcome is either the
`ScoredEndpoint` returned by `test_proxy` or the message of an
exception the future raised. Returns (`active_proxies`, printed error
log). `active_proxies` is the only collection the cycle records scored
results into. -/
def test_proxies (outcomes : List (Except String ScoredEndpoint)) :
    List ScoredEndpoint × List String :=
  outcomes.foldl handleFuture ([], [])

/-- Projection of an outcome to its result when the future returned. -/
def okResult : Except String ScoredEndpoint → Option ScoredEndpoint
  | .ok r => some r
  | .error _ => none

/-- Projection of an outcome to its message when the future raised. -/
def errMsg : Except String ScoredEndpoint → Option String
  | .ok _ => none
  | .error e => some e

/-- The sort relation of `select_best_proxy` (line 494): Python's
stable sort with key `(-success_rate, response_time)`, i.e. the
lexicographic order success rate descending then response time
ascending. -/
def proxyKeyLe (a b : ScoredEndpoint) : Bool :=
  decide (b.success_rate < a.success_rate ∨
    (a.success_rate = b.success_rate ∧ a.response_time ≤ b.response_time))

/-- The stable sort of line 494. -/
def sortActive (l : List ScoredEndpoint) : List ScoredEndpoint :=
  l.mergeSort proxyKeyLe

/-- `ProxyMaster.select_best_proxy` (lines 487-495): on an empty active
list return early selecting nothing; otherwise sort and take the head. -/
def select_best_proxy (active_proxies : List ScoredEndpoint) : Option ScoredEndpoint :=
  if active_proxies.isEmpty then none
  else (sortActive active_proxies).head?

/-- A sample scraped record, for concrete witnesses. -/
def sampleProxy : CandidateEndpoint :=
  { ip := "1.2.3.4", port := "8080", code := "US", country := "United States",
    anonymity := "elite proxy", google := "no", https := "yes",
    last_checked := "1 min ago", source := "www.sslproxies.org",
    success := false, response_time := -1, test_time := "",
    status := "untested", error := "" }

/-- A network where every probe succeeds with status 200 in 0.1 s. -/
def netAll200 : String → NetResult := fun _ => NetResult.response 200 (1/10)

/-- A concrete scored endpoint (all three probes succeed). -/
def scoredA : ScoredEndpoint :=
  test_proxy sampleProxy ["a", "b", "c"] netAll200 "t"

/-- A concrete scored endpoint builder for sort witnesses. -/
def mkScored (name : String) (rate rt : ℚ) : ScoredEndpoint :=
  { ip := name, port := "80", code := "", country := "", anonymity := "",
    google := "", https := "", last_checked := "", source := "",
    test_details := [], success := true, success_rate := rate,
    response_time := rt, test_time := "", status := Status.active, error := [] }

/-- The `url` key of a probe result is the probed target URL. -/
theorem classifyProbe_url (u : String) (r : NetResult) : (classifyProbe u r).url = u := by
  rcases r with ⟨c, t⟩ | _ | _ | _ | m
  · by_cases hc : c = 200 <;> simp [classifyProbe, hc]
  all_goals rfl

/-- The probe's success flag is set exactly when the raw elapsed time exists. -/
theorem classifyProbe_success (u : String) (r : NetResult) :
    (classifyProbe u r).success = (rawElapsed r).isSome := by
  rcases r with ⟨c, t⟩ | _ | _ | _ | m
  · by_cases hc : c = 200 <;> simp [classifyProbe, rawElapsed, hc]
  all_goals rfl

theorem probeStep_results (net : String → NetResult) (s : LoopState) (url : String) :
    (probeStep net s url).results = s.results ++ [classifyProbe url (net url)] := by
  rcases h : net url with ⟨c, t⟩ | _ | _ | _ | m <;> simp [probeStep, classifyProbe, h]
  by_cases hc : c = 200 <;> simp [hc]

theorem probeStep_total_time (net : String → NetResult) (s : LoopState) (url : String) :
    (probeStep net s url).total_time = s.total_time + (rawElapsed (net url)).getD 0 := by
  rcases h : net url with ⟨c, t⟩ | _ | _ | _ | m <;> simp [probeStep, rawElapsed, h]
  by_cases hc : c = 200 <;> simp [hc]

theorem probeStep_success_count (net : String → NetResult) (s : LoopState) (url : String) :
    (probeStep net s url).success_count =
      s.success_count + (if (rawElapsed (net url)).isSome then 1 else 0) := by
  rcases h : net url with ⟨c, t⟩ | _ | _ | _ | m <;> simp [probeStep, rawElapsed, h]
  by_cases hc : c = 200 <;> simp [hc]

theorem foldl_probeStep_results (net : String → NetResult) (urls : List String) :
    ∀ s : LoopState, (urls.foldl (probeStep net) s).results =
      s.results ++ urls.map (fun u => classifyProbe u (net u)) := by
  induction urls with
  | nil => intro s; simp
  | cons u us ih =>
    intro s
    simp [List.foldl_cons, ih, probeStep_results]

theorem foldl_probeStep_total (net : String → NetResult) (urls : List String) :
    ∀ s : LoopState, (urls.foldl (probeStep net) s).total_time =
      s.total_time + (succElapsed net urls).sum := by
  induction urls with
  | nil => intro s; simp [succElapsed]
  | cons u us ih =>
    intro s
    simp only [List.foldl_cons, ih, probeStep_total_time, succElapsed, List.filterMap_cons]
    cases h : rawElapsed (net u) <;> simp [h, add_assoc]

theorem foldl_probeStep_count (net : String → NetResult) (urls : List String) :
    ∀ s : LoopState, (urls.foldl (probeStep net) s).success_count =
      s.success_count + (succElapsed net urls).length := by
  induction urls with
  | nil => intro s; simp [succElapsed]
  | cons u us ih =>
    intro s
    simp only [List.foldl_cons, ih, probeStep_success_count, succElapsed, List.filterMap_cons]
    cases h : rawElapsed (net u) <;> simp [h, Nat.add_assoc, Nat.add_comm]

theorem test_proxy_details (p : CandidateEndpoint) (urls : List String)
    (net : String → NetResult) (now : String) :
    (test_proxy p urls net now).test_details = urls.map (fun u => classifyProbe u (net u)) := by
  simp [test_proxy, foldl_probeStep_results]

theorem test_proxy_success_rate (p : CandidateEndpoint) (urls : List String)
    (net : String → NetResult) (now : String) :
    (test_proxy p urls net now).success_rate =
      roundTo1 (((succElapsed net urls).length : ℚ) / (urls.length : ℚ) * 100) := by
  simp [test_proxy, foldl_probeStep_count]

theorem test_proxy_response_time (p : CandidateEndpoint) (urls : List String)
    (net : String → NetResult) (now : String) :
    (test_proxy p urls net now).response_time =
      if 0 < (succElapsed net urls).length then
        roundTo2 ((succElapsed net urls).sum / ((max 1 (succElapsed net urls).length : ℕ) : ℚ))
      else -1 := by
  simp [test_proxy, foldl_probeStep_total, foldl_probeStep_count]

theorem test_proxy_status_def (p : CandidateEndpoint) (urls : List String)
    (net : String → NetResult) (now : String) :
    (test_proxy p urls net now).status =
      (if (66.6 : ℚ) ≤ (test_proxy p urls net now).success_rate then Status.active
       else if 0 < (test_proxy p urls net now).success_rate then Status.unreliable
       else Status.dead) := rfl

theorem test_proxy_success_def (p : CandidateEndpoint) (urls : List String)
    (net : String → NetResult) (now : String) :
    (test_proxy p urls net now).success =
      decide ((66.6 : ℚ) ≤ (test_proxy p urls net now).success_rate) := rfl

theorem rhalfEven_nonneg {q : ℚ} (h : 0 ≤ q) : 0 ≤ rhalfEven q := by
  have hf : (0 : ℤ) ≤ ⌊q⌋ := Int.floor_nonneg.mpr h
  simp only [rhalfEven]
  split_ifs <;> omega

theorem rhalfEven_le {q : ℚ} {n : ℤ} (h : q ≤ (n : ℚ)) : rhalfEven q ≤ n := by
  have hf : ⌊q⌋ ≤ n := by
    have := Int.floor_le_floor h
    simpa using this
  have key : (1/2 : ℚ) ≤ q - (⌊q⌋ : ℚ) → ⌊q⌋ + 1 ≤ n := by
    intro hfrac
    rcases lt_or_eq_of_le hf with hlt | heq
    · omega
    · exfalso
      rw [heq] at hfrac
      linarith
  simp only [rhalfEven]
  split_ifs with h1 h2 h3
  · exact hf
  · exact key (by linarith)
  · exact hf
  · exact key (by linarith)

theorem test_proxy_rate_nonneg (p : CandidateEndpoint) (urls : List String)
    (net : String → NetResult) (now : String) :
    0 ≤ (test_proxy p urls net now).success_rate := by
  rw [test_proxy_success_rate]
  unfold roundTo1
  have h0 : (0 : ℚ) ≤ ((succElapsed net urls).length : ℚ) / (urls.length : ℚ) * 100 := by
    positivity
  have h1 : (0 : ℤ) ≤ rhalfEven (((succElapsed net urls).length : ℚ) / (urls.length : ℚ) * 100 * 10) :=
    rhalfEven_nonneg (by linarith)
  have h2 : (0 : ℚ) ≤
      ((rhalfEven (((succElapsed net urls).length : ℚ) / (urls.length : ℚ) * 100 * 10) : ℤ) : ℚ) := by
    exact_mod_cast h1
  linarith

theorem succElapsed_length_eq (net : String → NetResult) (urls : List String) :
    ((urls.map (fun u => classifyProbe u (net u))).filter (fun o => o.success)).length
      = (succElapsed net urls).length := by
  induction urls with
  | nil => simp [succElapsed]
  | cons u us ih =>
    simp only [List.map_cons, List.filter_cons, succElapsed, List.filterMap_cons] at *
    rw [classifyProbe_success]
    cases h : rawElapsed (net u) <;> simp [h, ih]

theorem foldl_handleFuture_eq (outcomes : List (Except String ScoredEndpoint)) :
    ∀ acc : List ScoredEndpoint × List String,
      outcomes.foldl handleFuture acc =
        (acc.1 ++ ((outcomes.filterMap okResult).filter fun r => r.success),
         acc.2 ++ outcomes.filterMap errMsg) := by
  induction outcomes with
  | nil => intro acc; simp
  | cons o os ih =>
    intro acc
    rcases o with e | r
    · simp [List.foldl_cons, handleFuture, ih, okResult, errMsg, List.filterMap_cons]
    · simp only [List.foldl_cons, handleFuture, ih, okResult, errMsg, List.filterMap_cons,
        List.filter_cons]
      by_cases hs : r.success <;> simp [hs]

theorem test_proxies_eq (outcomes : List (Except String ScoredEndpoint)) :
    test_proxies outcomes =
      ((outcomes.filterMap okResult).filter fun r => r.success,
       outcomes.filterMap errMsg) := by
  simpa using foldl_handleFuture_eq outcomes ([], [])

theorem mem_filterMap_okResult {r : ScoredEndpoint}
    {outcomes : List (Except String ScoredEndpoint)} :
    r ∈ outcomes.filterMap okResult ↔ Except.ok r ∈ outcomes := by
  rw [List.mem_filterMap]
  constructor
  · rintro ⟨o, ho, hr⟩
    rcases o with e | a
    · simp [okResult] at hr
    · simp only [okResult, Option.some.injEq] at hr
      rw [← hr]
      exact ho
  · intro h
    exact ⟨Except.ok r, h, rfl⟩

theorem proxyKeyLe_trans : ∀ a b c : ScoredEndpoint,
    proxyKeyLe a b → proxyKeyLe b c → proxyKeyLe a c := by
  intro a b c
  simp only [proxyKeyLe, decide_eq_true_eq]
  rintro (h1 | ⟨h1, h1'⟩) (h2 | ⟨h2, h2'⟩)
  · exact Or.inl (h2.trans h1)
  · exact Or.inl (h2 ▸ h1)
  · exact Or.inl (by rw [h1]; exact h2)
  · exact Or.inr ⟨h1.trans h2, h1'.trans h2'⟩

theorem proxyKeyLe_total : ∀ a b : ScoredEndpoint, proxyKeyLe a b || proxyKeyLe b a := by
  intro a b
  simp only [proxyKeyLe, Bool.or_eq_true, decide_eq_true_eq]
  rcases lt_trichotomy a.success_rate b.success_rate with h | h | h
  · exact Or.inr (Or.inl h)
  · rcases le_total a.response_time b.response_time with h2 | h2
    · exact Or.inl (Or.inr ⟨h, h2⟩)
    · exact Or.inr (Or.inr ⟨h.symm, h2⟩)
  · exact Or.inl (Or.inl h)

/-- Claim C1: for every ScoredEndpoint produced by `test_proxy`, the status
field is a function of the success ratio (the `success_rate` field scaled to
[0,1]) alone: `active` exactly when the ratio is at least 0.666 (boundary
inclusive), `unreliable` exactly when the ratio is strictly between 0 and
0.666, and `dead` exactly when the ratio is 0. -/
theorem status_function_of_ratio (p : CandidateEndpoint) (urls : List String)
    (net : String → NetResult) (now : String) :
    ((test_proxy p urls net now).status = Status.active ↔
        (666/1000 : ℚ) ≤ (test_proxy p urls net now).success_rate / 100)
  ∧ ((test_proxy p urls net now).status = Status.unreliable ↔
        (0 < (test_proxy p urls net now).success_rate / 100 ∧
         (test_proxy p urls net now).success_rate / 100 < 666/1000))
  ∧ ((test_proxy p urls net now).status = Status.dead ↔
        (test_proxy p urls net now).success_rate / 100 = 0) := by
  have hnn := test_proxy_rate_nonneg p urls net now
  rw [test_proxy_status_def]
  split_ifs with h1 h2
  · exact ⟨⟨fun _ => by linarith, fun _ => rfl⟩,
      ⟨fun h => by simp at h, fun h => by exfalso; linarith [h.2]⟩,
      ⟨fun h => by simp at h, fun h => by exfalso; linarith⟩⟩
  · exact ⟨⟨fun h => by simp at h, fun h => by exfalso; linarith⟩,
      ⟨fun _ => ⟨by linarith, by linarith⟩, fun _ => rfl⟩,
      ⟨fun h => by simp at h, fun h => by exfalso; linarith⟩⟩
  · exact ⟨⟨fun h => by simp at h, fun h => by exfalso; linarith⟩,
      ⟨fun h => by simp at h, fun h => by exfalso; linarith [h.1]⟩,
      ⟨fun _ => by linarith, fun _ => rfl⟩⟩

/-- Concrete witness for C1: an endpoint succeeding on all three targets has
ratio 1 ≥ 0.666 and is classified active. -/
theorem status_function_of_ratio_witness :
    (test_proxy sampleProxy ["a", "b", "c"] netAll200 "t").status = Status.active :=
  (status_function_of_ratio sampleProxy ["a", "b", "c"] netAll200 "t").1.mpr
    (by with_unfolding_all decide)

/-- Claim C2: over a non-empty target URL list, the success ratio lies in
[0,1] and equals the count of successful test outcomes divided by the number
of target URLs, rounded to one decimal percentage point. -/
theorem success_ratio_bounds_and_value (p : CandidateEndpoint) (urls : List String)
    (net : String → NetResult) (now : String) (h : urls ≠ []) :
    0 ≤ (test_proxy p urls net now).success_rate / 100
  ∧ (test_proxy p urls net now).success_rate / 100 ≤ 1
  ∧ (test_proxy p urls net now).success_rate =
      roundTo1 ((((test_proxy p urls net now).test_details.filter fun o => o.success).length : ℚ)
        / (urls.length : ℚ) * 100) := by
  have hnn := test_proxy_rate_nonneg p urls net now
  refine ⟨by linarith, ?_, ?_⟩
  · rw [test_proxy_success_rate]
    unfold roundTo1
    have hn : (0 : ℚ) < (urls.length : ℚ) := by
      exact_mod_cast List.length_pos.mpr h
    have hcnt : ((succElapsed net urls).length : ℚ) ≤ (urls.length : ℚ) := by
      exact_mod_cast List.length_filterMap_le (fun u => rawElapsed (net u)) urls
    have harg : ((succElapsed net urls).length : ℚ) / (urls.length : ℚ) * 100 ≤ 100 := by
      have hdiv : ((succElapsed net urls).length : ℚ) / (urls.length : ℚ) ≤ 1 :=
        (div_le_one hn).mpr hcnt
      linarith
    have hz : rhalfEven (((succElapsed net urls).length : ℚ) / (urls.length : ℚ) * 100 * 10)
        ≤ (1000 : ℤ) := rhalfEven_le (by push_cast; linarith)
    have hzq : ((rhalfEven (((succElapsed net urls).length : ℚ) / (urls.length : ℚ) * 100 * 10) : ℤ) : ℚ)
        ≤ 1000 := by exact_mod_cast hz
    linarith
  · rw [test_proxy_success_rate, test_proxy_details, succElapsed_length_eq]

/-- Concrete witness for C2: a single target probed successfully gives
ratio 1 ∈ [0,1] matching the rounded count formula. -/
theorem success_ratio_bounds_witness :
    0 ≤ (test_proxy sampleProxy ["a"] netAll200 "t").success_rate / 100
  ∧ (test_proxy sampleProxy ["a"] netAll200 "t").success_rate / 100 ≤ 1
  ∧ (test_proxy sampleProxy ["a"] netAll200 "t").success_rate =
      roundTo1 ((((test_proxy sampleProxy ["a"] netAll200 "t").test_details.filter
          fun o => o.success).length : ℚ) / ((["a"] : List String).length : ℚ) * 100) :=
  success_ratio_bounds_and_value sampleProxy ["a"] netAll200 "t" (by decide)

/-- Claim C7: `test_proxy` produces exactly one TestOutcome per target URL,
none skipped and none duplicated, in the order of the target URL list: the
details list is precisely the probe classification mapped over the URLs, has
the same length as the URL list, and projects back onto the URL list. -/
theorem one_outcome_per_target (p : CandidateEndpoint) (urls : List String)
    (net : String → NetResult) (now : String) :
    (test_proxy p urls net now).test_details = urls.map (fun u => classifyProbe u (net u))
  ∧ (test_proxy p urls net now).test_details.length = urls.length
  ∧ (test_proxy p urls net now).test_details.map (fun o => o.url) = urls := by
  refine ⟨test_proxy_details p urls net now, ?_, ?_⟩
  · rw [test_proxy_details]; simp
  · rw [test_proxy_details, List.map_map]
    calc urls.map ((fun o => o.url) ∘ fun u => classifyProbe u (net u))
        = urls.map id := List.map_congr_left (fun u _ => classifyProbe_url u (net u))
      _ = urls := List.map_id urls

/-- Claim C10: the ScoredEndpoint returned by `test_proxy` preserves every
input field outside the overridden test-result keys: ip, port, code, country,
anonymity, google, https, last_checked and source are unchanged. -/
theorem metadata_frame_preserved (p : CandidateEndpoint) (urls : List String)
    (net : String → NetResult) (now : String) :
    (test_proxy p urls net now).ip = p.ip
  ∧ (test_proxy p urls net now).port = p.port
  ∧ (test_proxy p urls net now).code = p.code
  ∧ (test_proxy p urls net now).country = p.country
  ∧ (test_proxy p urls net now).anonymity = p.anonymity
  ∧ (test_proxy p urls net now).google = p.google
  ∧ (test_proxy p urls net now).https = p.https
  ∧ (test_proxy p urls net now).last_checked = p.last_checked
  ∧ (test_proxy p urls net now).source = p.source :=
  ⟨rfl, rfl, rfl, rfl, rfl, rfl, rfl, rfl, rfl⟩

/-- Claim C5 (amended): every probe of one target URL is classified into
exactly one of the six outcome classes, and it is classified success if and
only if a response is received with status code exactly 200; any response
with a different status code — including other 2xx success codes — is an
http_error with the code recorded; a proxy refusal/reset is proxy_error, a
connect timeout is timeout, a certificate/handshake failure is tls_error,
and any other transport failure is classified other with its message
captured. The match on `NetResult` is exhaustive and the branches below are
mutually exclusive, so each probe yields exactly one outcome. -/
theorem probe_classification (url : String) (res : NetResult) :
    ((classifyProbe url res).success = true ↔ ∃ t : ℚ, res = NetResult.response 200 t)
  ∧ (∀ t : ℚ, classifyProbe url (NetResult.response 200 t) =
      { url := url, success := true, response_time := roundTo2 t,
        status_code := some 200, error := none })
  ∧ (∀ (c : ℕ) (t : ℚ), c ≠ 200 → classifyProbe url (NetResult.response c t) =
      { url := url, success := false, response_time := -1,
        status_code := some c, error := some ("HTTP " ++ toString c) })
  ∧ classifyProbe url NetResult.proxyError =
      { url := url, success := false, response_time := -1,
        status_code := none, error := some "Proxy Error" }
  ∧ classifyProbe url NetResult.connectTimeout =
      { url := url, success := false, response_time := -1,
        status_code := none, error := some "Timeout" }
  ∧ classifyProbe url NetResult.sslError =
      { url := url, success := false, response_time := -1,
        status_code := none, error := some "SSL Error" }
  ∧ (∀ m : String, classifyProbe url (NetResult.exceptionOther m) =
      { url := url, success := false, response_time := -1,
        status_code := none, error := some m }) := by
  refine ⟨?_, ?_, ?_, rfl, rfl, rfl, fun m => rfl⟩
  · constructor
    · intro h
      rcases res with ⟨c, t⟩ | _ | _ | _ | m
      · by_cases hc : c = 200
        · exact ⟨t, by rw [hc]⟩
        · exfalso; simp [classifyProbe, hc] at h
      all_goals simp [classifyProbe] at h
    · rintro ⟨t, rfl⟩
      simp [classifyProbe]
  · intro t
    simp [classifyProbe]
  · intro c t hc
    simp [classifyProbe, hc]

/-- Concrete witness for C5: a 200 response is success; a 404 response is an
http_error recording the code. -/
theorem probe_classification_witness :
    (classifyProbe "https://www.google.com" (NetResult.response 200 (1/4))).success = true
  ∧ (classifyProbe "https://www.google.com" (NetResult.response 404 (1/4))).error =
      some "HTTP 404" := by
  constructor
  · exact (probe_classification "https://www.google.com"
      (NetResult.response 200 (1/4))).1.mpr ⟨1/4, rfl⟩
  · rw [(probe_classification "https://www.google.com"
      (NetResult.response 404 (1/4))).2.2.1 404 (1/4) (by decide)]
    rfl

/-- Counterexample to C5 as stated: a response with HTTP status 204 — a
successful (2xx) status code, No Content — is NOT classified success; the
code compares the status against 200 only and records this response as the
http_error "HTTP 204". -/
theorem probe_classification_cex :
    (classifyProbe "https://www.google.com" (NetResult.response 204 (1/10))).success = false
  ∧ (classifyProbe "https://www.google.com" (NetResult.response 204 (1/10))).error =
      some "HTTP 204" :=
  ⟨rfl, rfl⟩

/-- Claim C6 (amended): if at least one probe succeeded, the mean latency
equals the arithmetic mean of the raw elapsed times of the successful probes
only, rounded to two decimals (failed probes contribute nothing); if zero
probes succeeded it is the sentinel −1. -/
theorem mean_latency_value (p : CandidateEndpoint) (urls : List String)
    (net : String → NetResult) (now : String) :
    (succElapsed net urls ≠ [] →
      (test_proxy p urls net now).response_time =
        roundTo2 ((succElapsed net urls).sum / ((succElapsed net urls).length : ℚ)))
  ∧ (succElapsed net urls = [] →
      (test_proxy p urls net now).response_time = -1) := by
  constructor
  · intro h
    rw [test_proxy_response_time]
    have hpos : 0 < (succElapsed net urls).length := List.length_pos.mpr h
    rw [if_pos hpos, Nat.max_eq_right hpos]
  · intro h
    rw [test_proxy_response_time, h]
    simp

/-- Concrete witness for C6 (amended): one successful probe of 0.1 s gives
mean latency round(0.1, 2) = 0.1. -/
theorem mean_latency_value_witness :
    (test_proxy sampleProxy ["a"] netAll200 "t").response_time =
      roundTo2 ((succElapsed netAll200 ["a"]).sum / ((succElapsed netAll200 ["a"]).length : ℚ)) :=
  (mean_latency_value sampleProxy ["a"] netAll200 "t").1 (by decide)

/-- Counterexample to C6 as stated: a single successful probe with raw
elapsed time 1/3 s has arithmetic mean 1/3, but the recorded mean latency is
round(1/3, 2) = 0.33 ≠ 1/3 — the code stores the mean rounded to two
decimals, not the mean itself. -/
theorem mean_latency_rounded_cex :
    (test_proxy sampleProxy ["u"] (fun _ => NetResult.response 200 (1/3)) "now").response_time
      = 33/100
  ∧ succElapsed (fun _ => NetResult.response 200 (1/3)) ["u"] = [(1/3 : ℚ)]
  ∧ ([(1/3 : ℚ)].sum / (([(1/3 : ℚ)].length : ℕ) : ℚ)) = 1/3
  ∧ (33/100 : ℚ) ≠ 1/3 := by
  refine ⟨by with_unfolding_all decide, by with_unfolding_all decide,
    by with_unfolding_all decide, by with_unfolding_all decide⟩

/-- Claim C3 (amended): if validating a single endpoint raises an unexpected
exception, the batch is not aborted — the fault is caught, its message is
only appended to the printed error log, and every other submitted endpoint
is processed exactly as if the faulting endpoint were absent. However the
faulting endpoint contributes no ScoredEndpoint to the cycle's recorded
results at all: in particular it is NOT recorded as a dead ScoredEndpoint
with an other classification. -/
theorem batch_fault_isolated (pre post : List (Except String ScoredEndpoint)) (e : String) :
    (test_proxies (pre ++ Except.error e :: post)).1 = (test_proxies (pre ++ post)).1
  ∧ (test_proxies (pre ++ Except.error e :: post)).2
      = (test_proxies pre).2 ++ e :: (test_proxies post).2 := by
  simp [test_proxies_eq, List.filterMap_append, List.filter_append, List.filterMap_cons,
    okResult, errMsg]

/-- Counterexample to C3 as stated: a batch whose only endpoint faults
records no ScoredEndpoint whatsoever — the cycle's result collection is
empty and the message is merely logged — so the faulting endpoint is not
recorded as a dead ScoredEndpoint with an other error classification. -/
theorem batch_fault_no_dead_record :
    (test_proxies [Except.error "boom"]).1 = []
  ∧ (test_proxies [Except.error "boom"]).2 = ["boom"]
  ∧ ¬ ∃ r : ScoredEndpoint,
      r ∈ (test_proxies [Except.error "boom"]).1 ∧ r.status = Status.dead := by
  refine ⟨rfl, rfl, ?_⟩
  rintro ⟨r, hr, -⟩
  rw [show (test_proxies [Except.error "boom"]).1 = [] from rfl] at hr
  exact (List.not_mem_nil r) hr

/-- Claim C8: for every ScoredEndpoint produced by `test_proxy` the success
flag is true exactly when the status is active, and `test_proxies` appends a
returned result to the active set exactly when that flag is true — so the
active set holds exactly the returned results whose status is active. -/
theorem active_set_exactly_active (p : CandidateEndpoint) (urls : List String)
    (net : String → NetResult) (now : String)
    (outcomes : List (Except String ScoredEndpoint)) (r : ScoredEndpoint) :
    ((test_proxy p urls net now).success = true ↔
        (test_proxy p urls net now).status = Status.active)
  ∧ (r ∈ (test_proxies outcomes).1 ↔ (Except.ok r ∈ outcomes ∧ r.success = true)) := by
  constructor
  · rw [test_proxy_success_def, test_proxy_status_def]
    by_cases h : (66.6 : ℚ) ≤ (test_proxy p urls net now).success_rate
    · simp [h]
    · rw [if_neg h]
      simp only [decide_eq_true_eq]
      constructor
      · intro hh; exact absurd hh h
      · intro hh
        split at hh <;> simp at hh
  · rw [test_proxies_eq]
    simp only [List.mem_filter, mem_filterMap_okResult]

/-- Concrete witness for C8: an all-successful endpoint has the flag set and
status active, and is placed in the active set by the batch loop. -/
theorem active_set_exactly_active_witness :
    (test_proxy sampleProxy ["a", "b", "c"] netAll200 "t").status = Status.active
  ∧ scoredA ∈ (test_proxies [Except.ok scoredA]).1 := by
  constructor
  · exact (active_set_exactly_active sampleProxy ["a", "b", "c"] netAll200 "t" [] scoredA).1.mp
      (by with_unfolding_all decide)
  · exact (active_set_exactly_active sampleProxy ["a", "b", "c"] netAll200 "t"
      [Except.ok scoredA] scoredA).2.mpr
      ⟨List.mem_singleton.mpr rfl, by with_unfolding_all decide⟩

/-- Claim C4: selection sorts the active set with a stable sort whose primary
key is success rate descending and secondary key is mean latency ascending;
the selected endpoint is the head of the sorted active set; an empty active
set selects nothing and raises no fault. Stability is stated as the standard
sublist characterisation: any key-sorted sublist of the input — in particular
any run of key-tied elements in first-seen order — remains a sublist of the
output. -/
theorem selection_sort_and_head (l : List ScoredEndpoint) :
    select_best_proxy ([] : List ScoredEndpoint) = none
  ∧ select_best_proxy l = (sortActive l).head?
  ∧ (sortActive l).Pairwise (fun a b =>
      b.success_rate < a.success_rate ∨
        (a.success_rate = b.success_rate ∧ a.response_time ≤ b.response_time))
  ∧ (sortActive l).Perm l
  ∧ (∀ c : List ScoredEndpoint,
      c.Pairwise (fun a b => proxyKeyLe a b = true) → c.Sublist l →
        c.Sublist (sortActive l)) := by
  refine ⟨rfl, ?_, ?_, List.mergeSort_perm l proxyKeyLe, ?_⟩
  · by_cases h : l.isEmpty
    · rw [List.isEmpty_iff] at h
      subst h
      simp [select_best_proxy, sortActive]
    · simp [select_best_proxy, h]
  · have hs := List.sorted_mergeSort proxyKeyLe_trans proxyKeyLe_total l
    exact hs.imp (fun hab => by simpa [proxyKeyLe] using hab)
  · intro c hc hsub
    exact List.sublist_mergeSort proxyKeyLe_trans proxyKeyLe_total hc hsub

/-- Concrete witness for C4: two key-tied endpoints keep first-seen order —
the sorted list is exactly the input and the first is selected. -/
theorem selection_sort_and_head_witness :
    select_best_proxy [mkScored "first" 100 (1/2), mkScored "second" 100 (1/2)]
      = some (mkScored "first" 100 (1/2))
  ∧ [mkScored "first" 100 (1/2), mkScored "second" 100 (1/2)].Sublist
      (sortActive [mkScored "first" 100 (1/2), mkScored "second" 100 (1/2)]) := by
  have h := selection_sort_and_head
    [mkScored "first" 100 (1/2), mkScored "second" 100 (1/2)]
  have hpair : List.Pairwise (fun a b => proxyKeyLe a b = true)
      [mkScored "first" 100 (1/2), mkScored "second" 100 (1/2)] := by
    refine List.Pairwise.cons (fun b hb => ?_)
      (List.Pairwise.cons (fun b hb => absurd hb (List.not_mem_nil b)) List.Pairwise.nil)
    rw [List.mem_singleton] at hb
    subst hb
    with_unfolding_all decide
  have hsub := h.2.2.2.2 _ hpair (List.Sublist.refl _)
  refine ⟨?_, hsub⟩
  have hlen : (sortActive [mkScored "first" 100 (1/2), mkScored "second" 100 (1/2)]).length = 2 :=
    h.2.2.2.1.length_eq
  have heq : sortActive [mkScored "first" 100 (1/2), mkScored "second" 100 (1/2)]
      = [mkScored "first" 100 (1/2), mkScored "second" 100 (1/2)] :=
    (hsub.eq_of_length (by rw [hlen]; rfl)).symm
  rw [h.2.1, heq]
  rfl

/-- Claim C9: sorting the active set by the selection key is idempotent —
sorting an already-sorted active set yields the same sequence. -/
theorem selection_sort_idempotent (l : List ScoredEndpoint) :
    sortActive (sortActive l) = sortActive l :=
  List.mergeSort_of_sorted (List.sorted_mergeSort proxyKeyLe_trans proxyKeyLe_total l)
